import Mathlib

/-!
Verification of the deep-research control loop (deepagents repository).

Shallow embedding of the research state machine: the routing functions of
src/agents/edges/routing.py, the planning node of
src/agents/nodes/generate_queries.py, the analysis node of
src/agents/nodes/analyze.py, the synthesis node of
src/agents/nodes/synthesize.py, the graph wiring of src/agents/graph.py,
the pure utilities of src/utils/research_utils.py, the batch search
executor of src/services/search/web_search.py and the session entry point
of src/main.py.  Python floats are modelled as rationals, Python ints as
naturals or integers, dictionaries either as structures (when every read
uses a default) or as association lists (when key presence matters).
-/

namespace DeepResearch

/-- A red-flag finding, mirroring RedFlagItem in src/models/search_result.py. -/
structure RedFlagItem where
  finding : String
  severity : String
  confidence : ℚ
  sources : List String
deriving DecidableEq, Repr

/-- A source credibility assessment, mirroring SourceCredibility in src/models/search_result.py. -/
structure SourceCredibility where
  source : String
  url : String
  credibility : ℚ
deriving DecidableEq, Repr

/-- A reflection record, mirroring ReflectionOutput in src/models/search_result.py. -/
structure Reflection where
  new_findings : List String
  new_entities : List String
  new_relationships : List String
  identified_gaps : List String
  gaps_searched : List String
  gaps_unfillable : List String
  red_flags : List RedFlagItem
  neutral_facts : List String
  positive_indicators : List String
  should_continue : Bool
  reasoning : String
  confidence_score : ℚ
  priority_topics : List String
  suggested_angles : List String
  source_credibility : List SourceCredibility
deriving DecidableEq, Repr

/-- One entry of the search memory: the depth tag, the queries of the round and
the number of sources found, the fields read by calculate_confidence_score. -/
structure SearchMem where
  depth : ℕ
  queries : List String
  sources_found : ℕ
deriving DecidableEq, Repr

/-- The configuration fields read by the control loop, from src/config/settings.py. -/
structure Settings where
  confidence_threshold : ℚ
  confidence_weight_findings : ℚ
  confidence_weight_sources : ℚ
  confidence_weight_gaps : ℚ
  confidence_weight_validation : ℚ
  stagnation_check_iterations : ℕ
deriving DecidableEq, Repr

/-- Finding-confidence component of calculate_confidence_score
(src/utils/research_utils.py lines 177-182): mean red-flag confidence,
neutral one half when no red flags exist. -/
def finding_confidence (reflection_output : Reflection) : ℚ :=
  if reflection_output.red_flags.isEmpty then 1/2
  else (reflection_output.red_flags.map (fun rf => rf.confidence)).sum /
    (reflection_output.red_flags.length : ℚ)

/-- Source-credibility component (lines 184-189): mean credibility,
neutral one half when no assessments exist. -/
def source_credibility_score (reflection_output : Reflection) : ℚ :=
  if reflection_output.source_credibility.isEmpty then 1/2
  else (reflection_output.source_credibility.map (fun sc => sc.credibility)).sum /
    (reflection_output.source_credibility.length : ℚ)

/-- Gap-coverage component (lines 191-200): gaps addressed over gaps identified
capped at one, and four fifths when no gaps were identified. -/
def gap_coverage (reflection_output : Reflection) : ℚ :=
  if reflection_output.identified_gaps.isEmpty then 4/5
  else
    min (((reflection_output.gaps_searched.length +
        reflection_output.gaps_unfillable.length : ℕ) : ℚ) /
      (reflection_output.identified_gaps.length : ℚ)) 1

/-- Cross-validation component (lines 202-214): average sources per query over
the whole search memory, normalised at five sources per query, zero when no
queries have run. -/
def cross_validation (search_memory : List SearchMem) : ℚ :=
  let total_sources : ℕ := (search_memory.map (fun mem => mem.sources_found)).sum
  let total_queries : ℕ := (search_memory.map (fun mem => mem.queries.length)).sum
  if 0 < total_queries then
    min ((total_sources : ℚ) / (total_queries : ℚ) / 5) 1
  else 0

/-- calculate_confidence_score (src/utils/research_utils.py lines 147-224):
weighted sum of the four components, clamped to the unit interval. -/
def calculate_confidence_score (cfg : Settings) (reflection_output : Reflection)
    (search_memory : List SearchMem) (current_depth : ℕ) : ℚ :=
  let confidence_score :=
    finding_confidence reflection_output * cfg.confidence_weight_findings +
    source_credibility_score reflection_output * cfg.confidence_weight_sources +
    gap_coverage reflection_output * cfg.confidence_weight_gaps +
    cross_validation search_memory * cfg.confidence_weight_validation
  min (max confidence_score 0) 1

/-- The Python slice l[-n:]: the last n elements for positive n, but the whole
list for n = 0 because -0 equals 0 in Python. -/
def pyLastSlice {α : Type} (l : List α) (n : ℕ) : List α :=
  if n = 0 then l else l.drop (l.length - n)

/-- check_stagnation (src/utils/research_utils.py lines 227-257): false when
fewer than n reflections exist, otherwise true exactly when no reflection in
the slice reflection_memory[-n:] reports any new entity. -/
def check_stagnation (reflection_memory : List Reflection) (n_iterations : ℕ) : Bool :=
  if reflection_memory.length < n_iterations then false
  else (pyLastSlice reflection_memory n_iterations).all
    (fun reflection => reflection.new_entities.isEmpty)

/-- The research state threaded through the graph, mirroring the AgentState
TypedDict of src/models/state.py together with the further keys the nodes
write (reflection_memory, discovered_entities, the three risk_indicators
lists, confidence_score).  Here every field is total; which keys are actually
created at session start is modelled separately on association lists. -/
structure RState where
  session_id : String
  subject : String
  subject_context : Option String
  current_depth : ℕ
  max_depth : ℕ
  queries_executed : List String
  pending_queries : List String
  should_continue : Bool
  termination_reason : Option String
  search_count : ℕ
  extraction_count : ℕ
  error_count : ℕ
  iteration_count : ℕ
  search_memory : List SearchMem
  reflection_memory : List Reflection
  discovered_entities : List String
  risk_red_flags : List String
  risk_neutral : List String
  risk_positive : List String
  confidence_score : ℚ
deriving DecidableEq, Repr

/-- Result of the conditional edge after analysis
(src/agents/edges/routing.py, should_continue_research). -/
inductive SCRRoute where
  | continue_search
  | analyze
  | finish
deriving DecidableEq, Repr

/-- Result of the conditional edge after query refinement
(src/agents/edges/routing.py, has_new_queries). -/
inductive HNQRoute where
  | search_more
  | synthesize
deriving DecidableEq, Repr

/-- should_continue_research (src/agents/edges/routing.py lines 9-80): the
post-analysis routing decision, together with the state mutations it performs
(writing termination_reason on the finish branches, incrementing
current_depth on the continue branch). -/
def should_continue_research (cfg : Settings) (state : RState) : RState × SCRRoute :=
  if state.max_depth ≤ state.current_depth then
    ({ state with termination_reason := some "max_depth_reached" }, SCRRoute.finish)
  else if cfg.confidence_threshold ≤ state.confidence_score then
    ({ state with termination_reason := some "confidence_threshold_met" }, SCRRoute.finish)
  else
    match state.reflection_memory.getLast? with
    | some latest_reflection =>
      if latest_reflection.should_continue = false then
        ({ state with termination_reason := some "reflection_recommended_stop" },
          SCRRoute.finish)
      else if check_stagnation state.reflection_memory cfg.stagnation_check_iterations then
        (state, SCRRoute.analyze)
      else
        ({ state with current_depth := state.current_depth + 1 },
          SCRRoute.continue_search)
    | none =>
      if check_stagnation state.reflection_memory cfg.stagnation_check_iterations then
        (state, SCRRoute.analyze)
      else
        ({ state with current_depth := state.current_depth + 1 },
          SCRRoute.continue_search)

/-- has_new_queries (src/agents/edges/routing.py lines 83-108): the conditional
edge after refine_queries, writing termination_reason when no queries remain. -/
def has_new_queries (state : RState) : RState × HNQRoute :=
  if state.pending_queries.isEmpty then
    ({ state with termination_reason := some "no_additional_queries" }, HNQRoute.synthesize)
  else (state, HNQRoute.search_more)

/-- generate_search_queries (src/agents/nodes/generate_queries.py lines 8-71),
as a function of the generation outcome delivered by the query-generation
capability: on success it installs the queries, increments current_depth and
iteration_count; on failure it increments error_count and leaves an empty
pending list, without raising. -/
def generate_search_queries (state : RState) (generation : Except String (List String)) :
    RState :=
  match generation with
  | Except.ok queries =>
    { state with
        pending_queries := queries,
        current_depth := state.current_depth + 1,
        iteration_count := state.iteration_count + 1 }
  | Except.error _ =>
    { state with
        error_count := state.error_count + 1,
        pending_queries := [] }

/-- Modelled from the spec: the graph node execute_web_search
(src/agents/nodes/web_search.py) is absent from src/.  Per section 4.2 and the
section 3 data model, the executor runs the pending queries, appends one
search-memory record tagged with the depth active at execution time, extends
queries_executed, increments search_count and consumes the pending list; it
does not touch current_depth, max_depth, should_continue or
termination_reason.  The number of sources found comes from the external
search capability, here the parameter sources_found. -/
def execute_web_search (state : RState) (sources_found : ℕ) : RState :=
  { state with
      search_memory := state.search_memory ++
        [{ depth := state.current_depth,
           queries := state.pending_queries,
           sources_found := sources_found }],
      queries_executed := state.queries_executed ++ state.pending_queries,
      search_count := state.search_count + 1,
      pending_queries := [] }

/-- analyze_and_reflect (src/agents/nodes/analyze.py lines 121-223), as a
function of the reflection record produced by the reflection capability and of
the merged entity list produced by the entity-merge capability: with empty
search memory the state is returned unchanged; otherwise the reflection is
appended, entities and confidence are updated, the categorized findings are
appended to the risk lists and should_continue is taken from the reflection. -/
def analyze_and_reflect (cfg : Settings) (state : RState)
    (reflection_result : Reflection) (merged_entities : List String) : RState :=
  if state.search_memory.isEmpty then state
  else
    { state with
        reflection_memory := state.reflection_memory ++ [reflection_result],
        discovered_entities := merged_entities,
        confidence_score :=
          calculate_confidence_score cfg reflection_result state.search_memory
            state.current_depth,
        risk_red_flags := state.risk_red_flags ++
          reflection_result.red_flags.map (fun rf => rf.finding),
        risk_neutral := state.risk_neutral ++ reflection_result.neutral_facts,
        risk_positive := state.risk_positive ++ reflection_result.positive_indicators,
        should_continue := reflection_result.should_continue }

/-- The successful tail of synthesize_report (src/agents/nodes/synthesize.py
lines 269-272): mark the session complete and set a termination reason only if
none was set before. -/
def synthesize_report_success (state : RState) : RState :=
  { state with
      should_continue := false,
      termination_reason :=
        match state.termination_reason with
        | none => some "report_synthesized"
        | some r => some r }

/-- The exception handler of synthesize_report (src/agents/nodes/synthesize.py
lines 274-280): increment error_count, force should_continue to false and
overwrite termination_reason before re-raising. -/
def synthesize_report_failure (state : RState) (err : String) : RState :=
  { state with
      error_count := state.error_count + 1,
      should_continue := false,
      termination_reason := some ("report_generation_error: " ++ err) }

/-- The nodes of the LangGraph workflow (src/agents/graph.py), plus the two
absorbing outcomes: graph_end for a completed run and failed for a run aborted
by the re-raised synthesis exception. -/
inductive Node where
  | init_session
  | generate_queries
  | execute_search
  | analyze_and_reflect
  | map_connections
  | refine_queries
  | synthesize_report
  | graph_end
  | failed
deriving DecidableEq, Repr

deriving instance DecidableEq for Except

/-- The oracle inputs one traversal step may consume: the outcome of the
query-generation capability, the source count delivered by the search
capability, the reflection record and merged entity list delivered by the
analysis and merge capabilities, and whether report synthesis succeeds. -/
structure EnvInput where
  queryGen : Except String (List String)
  sourcesFound : ℕ
  reflection : Reflection
  mergedEntities : List String
  synthesisOk : Bool
  synthesisErr : String
deriving DecidableEq, Repr

/-- One traversal step of the compiled graph (src/agents/graph.py lines
44-78): each node runs and the matching edge (plain or conditional) selects
the successor.  The init_session node only fills missing keys via setdefault,
which on the total record is the identity; map_connections is a pass-through
(src/agents/nodes/connect.py).  The terminal outcomes take no step. -/
def step (cfg : Settings) (node : Node) (state : RState) (env : EnvInput) :
    Option (Node × RState) :=
  match node with
  | Node.init_session => some (Node.generate_queries, state)
  | Node.generate_queries =>
    some (Node.execute_search, generate_search_queries state env.queryGen)
  | Node.execute_search =>
    some (Node.analyze_and_reflect, execute_web_search state env.sourcesFound)
  | Node.analyze_and_reflect =>
    let analyzed := analyze_and_reflect cfg state env.reflection env.mergedEntities
    let routed := should_continue_research cfg analyzed
    match routed.2 with
    | SCRRoute.continue_search => some (Node.generate_queries, routed.1)
    | SCRRoute.analyze => some (Node.map_connections, routed.1)
    | SCRRoute.finish => some (Node.synthesize_report, routed.1)
  | Node.map_connections => some (Node.refine_queries, state)
  | Node.refine_queries =>
    let refined := generate_search_queries state env.queryGen
    let routed := has_new_queries refined
    match routed.2 with
    | HNQRoute.search_more => some (Node.execute_search, routed.1)
    | HNQRoute.synthesize => some (Node.synthesize_report, routed.1)
  | Node.synthesize_report =>
    if env.synthesisOk then some (Node.graph_end, synthesize_report_success state)
    else some (Node.failed, synthesize_report_failure state env.synthesisErr)
  | Node.graph_end => none
  | Node.failed => none

/-- The initial state built by DeepResearchAgent.research (src/main.py lines
60-77) viewed as a total record over every field the nodes touch.  The record
is deliberately total: the state dictionary of the source lacks the keys
reflection_memory, discovered_entities and the risk lists (this is
established on the association-list model below), so the traversal built on
this record over-approximates the source at the analysis node, whose direct
subscripts on those keys raise KeyError; every execution of the source is a
prefix of a modelled one, and the traversal run_src below restores the abort
that the missing keys cause. -/
def initial_state (session_id subject : String) (subject_context : Option String)
    (max_depth : ℕ) : RState :=
  { session_id := session_id
    subject := subject
    subject_context := subject_context
    current_depth := 0
    max_depth := max_depth
    queries_executed := []
    pending_queries := []
    should_continue := true
    termination_reason := none
    search_count := 0
    extraction_count := 0
    error_count := 0
    iteration_count := 0
    search_memory := []
    reflection_memory := []
    discovered_entities := []
    risk_red_flags := []
    risk_neutral := []
    risk_positive := []
    confidence_score := 0 }

/-- Iterated traversal: the configuration after k steps of the graph driven by
the oracle stream env, starting at the entry point init_session.  This is the
over-approximating traversal in which every node takes its step; the source
may instead abort at the analysis node (see run_src), so every execution of
the source is a prefix of a run. -/
def run (cfg : Settings) (env : ℕ → EnvInput) (init : RState) : ℕ → Option (Node × RState)
  | 0 => some (Node.init_session, init)
  | k + 1 => (run cfg env init k).bind (fun p => step cfg p.1 p.2 (env k))

/-- One traversal step as the source actually executes it: identical to step
except at the analysis node when search memory is non-empty.  There the
source performs the direct subscripts state["reflection_memory"].append
(src/agents/nodes/analyze.py line 203) and
state["risk_indicators"]["red_flags"].extend (line 209) on keys that no code
path ever creates — neither the initial_state dictionary of
DeepResearchAgent.research, nor the setdefault entries of initialize_session,
nor any other node writes reflection_memory, discovered_entities or
risk_indicators, and the AgentState TypedDict does not declare them — so the
node raises KeyError and the graph invocation aborts instead of taking a
step.  With empty search memory the no-op guard at analyze.py line 148
returns before those subscripts and the step proceeds as in step. -/
def step_src (cfg : Settings) (node : Node) (state : RState) (env : EnvInput) :
    Option (Node × RState) :=
  match node with
  | Node.analyze_and_reflect =>
    if state.search_memory.isEmpty then step cfg Node.analyze_and_reflect state env
    else none
  | other => step cfg other state env

/-- Iterated traversal of the source behaviour: like run, but taking the
KeyError abort of the analysis node into account. -/
def run_src (cfg : Settings) (env : ℕ → EnvInput) (init : RState) :
    ℕ → Option (Node × RState)
  | 0 => some (Node.init_session, init)
  | k + 1 => (run_src cfg env init k).bind (fun p => step_src cfg p.1 p.2 (env k))

/-- A Python value as stored in the state dictionary, for the key-presence
model of session initialization. -/
inductive PyVal where
  | int (n : ℤ)
  | str (s : String)
  | bool (b : Bool)
  | pynone
  | time
  | list (elems : List PyVal)
  | dict (entries : List (String × PyVal))

/-- The initial_state dictionary literal of DeepResearchAgent.research
(src/main.py lines 60-77), key for key. -/
def main_initial_dict (session_id subject : String) (subject_context : Option String)
    (max_depth : ℤ) : List (String × PyVal) :=
  [("session_id", PyVal.str session_id),
   ("subject", PyVal.str subject),
   ("subject_context",
     match subject_context with
     | some c => PyVal.str c
     | none => PyVal.pynone),
   ("current_depth", PyVal.int 0),
   ("max_depth", PyVal.int max_depth),
   ("queries_executed", PyVal.list []),
   ("pending_queries", PyVal.list []),
   ("should_continue", PyVal.bool true),
   ("termination_reason", PyVal.pynone),
   ("start_time", PyVal.time),
   ("search_count", PyVal.int 0),
   ("extraction_count", PyVal.int 0),
   ("error_count", PyVal.int 0),
   ("iteration_count", PyVal.int 0),
   ("search_iterations", PyVal.list []),
   ("messages", PyVal.list [])]

/-- The defaults dictionary of initialize_session
(src/agents/nodes/initialize.py lines 31-37), key for key. -/
def init_session_defaults : List (String × PyVal) :=
  [("current_depth", PyVal.int 0),
   ("start_time", PyVal.time),
   ("entities", PyVal.list []),
   ("facts", PyVal.list []),
   ("connections", PyVal.list []),
   ("red_flags", PyVal.list []),
   ("queries_executed", PyVal.list []),
   ("pending_queries", PyVal.list []),
   ("search_count", PyVal.int 0),
   ("extraction_count", PyVal.int 0),
   ("error_count", PyVal.int 0),
   ("should_continue", PyVal.bool true),
   ("messages", PyVal.list []),
   ("search_iterations", PyVal.list []),
   ("extracted_metadata", PyVal.dict []),
   ("timeline", PyVal.list []),
   ("search_memory", PyVal.list [])]

/-- dict.setdefault on an association list: keep the existing entry if the key
is present, append the default otherwise. -/
def py_setdefault (st : List (String × PyVal)) (key : String) (v : PyVal) :
    List (String × PyVal) :=
  if (st.lookup key).isSome then st else st ++ [(key, v)]

/-- initialize_session (src/agents/nodes/initialize.py lines 12-48) on the
state dictionary: setdefault for every entry of the defaults dictionary. -/
def init_session_dict (st : List (String × PyVal)) : List (String × PyVal) :=
  init_session_defaults.foldl (fun acc kv => py_setdefault acc kv.1 kv.2) st

/-- The state dictionary right after session initialization: the dictionary
built by DeepResearchAgent.research passed through initialize_session. -/
def initialized_dict (session_id subject : String) (subject_context : Option String)
    (max_depth : ℤ) : List (String × PyVal) :=
  init_session_dict (main_initial_dict session_id subject subject_context max_depth)

/-- Whether the direct subscript reads of analyze_and_reflect
(src/agents/nodes/analyze.py lines 203 and 209-211) would find their keys:
state subscripting raises KeyError on a missing key, unlike dict.get. -/
def analyze_subscripts_present (st : List (String × PyVal)) : Bool :=
  (st.lookup "reflection_memory").isSome && (st.lookup "risk_indicators").isSome

/-- asyncio.gather over the already-determined task outcomes, without
return_exceptions: the list of results when every task succeeds, otherwise
the first exception in task order propagates to the awaiter. -/
def asyncio_gather {ε α : Type} : List (Except ε α) → Except ε (List α)
  | [] => Except.ok []
  | Except.error e :: _ => Except.error e
  | Except.ok a :: rest =>
    match asyncio_gather rest with
    | Except.error e => Except.error e
    | Except.ok l => Except.ok (a :: l)

/-- SearchExecutor.parallel_search (src/services/search/web_search.py lines
44-73) as a function of the per-query outcomes of the external search
capability: one limited_search task per query, awaited through
asyncio.gather with no return_exceptions argument. -/
def parallel_search {ε α : Type} (task_outcomes : List (Except ε α)) : Except ε (List α) :=
  asyncio_gather task_outcomes

/-- The failure dictionary returned by DeepResearchAgent.research
(src/main.py lines 122-126). -/
structure FailureResult where
  session_id : String
  success : Bool
  error : String
deriving DecidableEq, Repr

/-- The value DeepResearchAgent.research (src/main.py lines 39-126) returns,
as a function of the graph-invocation outcome: the except block returns the
failure dictionary, while the try block after a successful graph invocation
falls through with no return statement (the report extraction is commented
out), so Python returns None, modelled as Option.none. -/
def research (session_id : String) (graph_outcome : Except String RState) :
    Option FailureResult :=
  match graph_outcome with
  | Except.ok _ => none
  | Except.error e => some { session_id := session_id, success := false, error := e }

/-- A configuration with the default weights and thresholds of
src/config/settings.py. -/
def cfg0 : Settings :=
  { confidence_threshold := 17/20
    confidence_weight_findings := 2/5
    confidence_weight_sources := 3/10
    confidence_weight_gaps := 1/5
    confidence_weight_validation := 1/10
    stagnation_check_iterations := 2 }

/-- A reflection that recommends continuing and reports nothing new. -/
def reflection_continue : Reflection :=
  { new_findings := []
    new_entities := []
    new_relationships := []
    identified_gaps := []
    gaps_searched := []
    gaps_unfillable := []
    red_flags := []
    neutral_facts := []
    positive_indicators := []
    should_continue := true
    reasoning := "coverage still incomplete"
    confidence_score := 0
    priority_topics := []
    suggested_angles := []
    source_credibility := [] }

/-- The reflection above, but reporting one newly discovered entity. -/
def reflection_with_entity : Reflection :=
  { reflection_continue with new_entities := ["Acme Holdings"] }

/-- An oracle stream whose query generation always succeeds with one query
and whose reflection always recommends continuing. -/
def envA : ℕ → EnvInput := fun _ =>
  { queryGen := Except.ok ["q1"]
    sourcesFound := 3
    reflection := reflection_continue
    mergedEntities := []
    synthesisOk := true
    synthesisErr := "" }

/-- An oracle stream whose query generation always fails. -/
def envErr : ℕ → EnvInput := fun _ =>
  { queryGen := Except.error "query generation failed"
    sourcesFound := 0
    reflection := reflection_continue
    mergedEntities := []
    synthesisOk := true
    synthesisErr := "" }

/-- A reflection carrying exactly one red flag of confidence nine tenths. -/
def reflection_one_flag : Reflection :=
  { reflection_continue with
      red_flags := [{ finding := "undisclosed litigation"
                      severity := "high"
                      confidence := 9/10
                      sources := [] }] }

/-- Weights all zero except the findings weight, which is one. -/
def cfg_findings_only : Settings :=
  { confidence_threshold := 17/20
    confidence_weight_findings := 1
    confidence_weight_sources := 0
    confidence_weight_gaps := 0
    confidence_weight_validation := 0
    stagnation_check_iterations := 2 }

/-! Helper lemmas. -/

theorem list_sum_nonneg (l : List ℚ) (h : ∀ x ∈ l, 0 ≤ x) : 0 ≤ l.sum := by
  induction l with
  | nil => simp
  | cons a t ih =>
    simp only [List.sum_cons]
    have ha := h a (List.mem_cons_self a t)
    have ht := ih (fun x hx => h x (List.mem_cons_of_mem a hx))
    linarith

theorem list_sum_le_length (l : List ℚ) (h : ∀ x ∈ l, x ≤ 1) : l.sum ≤ (l.length : ℚ) := by
  induction l with
  | nil => simp
  | cons a t ih =>
    simp only [List.sum_cons, List.length_cons]
    have ha := h a (List.mem_cons_self a t)
    have ht := ih (fun x hx => h x (List.mem_cons_of_mem a hx))
    push_cast
    linarith

theorem getLast?_mem_drop {α : Type} :
    ∀ (l : List α) (k : ℕ), k < l.length → ∀ r, l.getLast? = some r → r ∈ l.drop k := by
  intro l
  induction l with
  | nil => intro k hk; simp at hk
  | cons a t ih =>
    intro k hk r hr
    cases k with
    | zero =>
      obtain ⟨hne, hx⟩ :=
        List.mem_getLast?_eq_getLast (l := a :: t) (Option.mem_def.mpr hr)
      rw [hx]
      simp [List.getLast_mem hne]
    | succ k =>
      cases t with
      | nil => simp at hk
      | cons b t2 =>
        have hk2 : k < (b :: t2).length := by
          simpa using Nat.lt_of_succ_lt_succ hk
        have hr2 : (b :: t2).getLast? = some r := by
          simpa [List.getLast?_cons_cons] using hr
        simpa using ih k hk2 r hr2

/-- C8: for any window size N of at least one, check_stagnation returns false
whenever fewer than N reflections exist, and with at least N reflections it
returns true exactly when none of the last N reflections reports a newly
discovered entity; in particular a most-recent reflection with at least one
new entity forces false. -/
theorem stagnation_spec (mem : List Reflection) (n : ℕ) (hn : 1 ≤ n) :
    (mem.length < n → check_stagnation mem n = false) ∧
    (n ≤ mem.length →
      (check_stagnation mem n = true ↔
        ∀ r ∈ mem.drop (mem.length - n), r.new_entities = [])) ∧
    (n ≤ mem.length → ∀ r, mem.getLast? = some r → r.new_entities ≠ [] →
      check_stagnation mem n = false) := by
  have hiff : n ≤ mem.length →
      (check_stagnation mem n = true ↔
        ∀ r ∈ mem.drop (mem.length - n), r.new_entities = []) := by
    intro hle
    rw [check_stagnation, if_neg (by omega), pyLastSlice, if_neg (by omega)]
    simp [List.all_eq_true, List.isEmpty_iff]
  refine ⟨fun hlt => by simp [check_stagnation, hlt], hiff, ?_⟩
  intro hle r hr hne
  by_contra hcon
  have htrue : check_stagnation mem n = true := by
    cases h : check_stagnation mem n with
    | false => exact absurd h hcon
    | true => rfl
  have hmem : r ∈ mem.drop (mem.length - n) := by
    refine getLast?_mem_drop mem (mem.length - n) (by omega) r hr
  exact hne ((hiff hle).mp htrue r hmem)

/-- Witness for C8 at a concrete input: with window two and no reflections
yet, the detector reports no stagnation. -/
theorem stagnation_spec_witness : check_stagnation [] 2 = false :=
  (stagnation_spec [] 2 (by decide)).1 (by decide)

/-- C10 counterexample: with window size zero and a one-reflection history
that reports a new entity, check_stagnation returns false, refuting the claim
that a zero window always yields true. -/
theorem stagnation_zero_window_cex : check_stagnation [reflection_with_entity] 0 = false := by
  decide

/-- C10 amended: with window size zero the insufficient-history guard can
never fire, but the Python slice with index -0 denotes the whole list, so the
detector returns true exactly when no reflection in the entire history
reports a new entity; on the empty history it returns true. -/
theorem stagnation_zero_window (mem : List Reflection) :
    check_stagnation mem 0 =
      mem.all (fun reflection => reflection.new_entities.isEmpty) ∧
    check_stagnation ([] : List Reflection) 0 = true := by
  constructor
  · rw [check_stagnation, if_neg (by omega), pyLastSlice, if_pos rfl]
  · decide

/-- C4: on the failure path DeepResearchAgent.research returns the failure
dictionary with the session identifier and the error text, but on the
successful path it returns None rather than a success result bundling the
final report and the session identifier: the try block has no return
statement.  This evaluates the code at the failing input class for the
code_bug verdict. -/
theorem research_success_returns_none (session_id : String) :
    (∀ final_state : RState, research session_id (Except.ok final_state) = none) ∧
    (∀ err : String, research session_id (Except.error err) =
      some { session_id := session_id, success := false, error := err }) :=
  ⟨fun _ => rfl, fun _ => rfl⟩

theorem asyncio_gather_ok_iff {ε α : Type} :
    ∀ (outs : List (Except ε α)) (results : List α),
      asyncio_gather outs = Except.ok results ↔ outs = results.map Except.ok := by
  intro outs
  induction outs with
  | nil => intro results; cases results <;> simp [asyncio_gather]
  | cons head tail ih =>
    intro results
    cases head with
    | error e =>
      cases results <;> simp [asyncio_gather]
    | ok a =>
      cases htail : asyncio_gather tail with
      | error e =>
        simp only [asyncio_gather, htail]
        constructor
        · intro h; cases h
        · intro h
          cases results with
          | nil => simp at h
          | cons r rs =>
            simp only [List.map_cons, List.cons.injEq] at h
            have := (ih rs).mpr h.2
            rw [this] at htail
            cases htail
      | ok l =>
        simp only [asyncio_gather, htail]
        have htl : tail = l.map Except.ok := (ih l).mp htail
        constructor
        · intro h
          cases results with
          | nil => cases h
          | cons r rs =>
            simp only [Except.ok.injEq, List.cons.injEq] at h
            subst htl
            have hrs : l = rs := h.2
            subst hrs
            simp [h.1]
        · intro h
          cases results with
          | nil => simp at h
          | cons r rs =>
            simp only [List.map_cons, List.cons.injEq, Except.ok.injEq] at h ⊢
            refine ⟨h.1, ?_⟩
            have := (ih rs).mpr h.2
            rw [this] at htail
            injection htail with hx
            exact hx.symm

theorem asyncio_gather_error_of_mem {ε α : Type} :
    ∀ (outs : List (Except ε α)) (e : ε), Except.error e ∈ outs →
      ∃ e2, asyncio_gather outs = Except.error e2 := by
  intro outs
  induction outs with
  | nil => intro e he; simp at he
  | cons head tail ih =>
    intro e he
    cases head with
    | error e1 => exact ⟨e1, rfl⟩
    | ok a =>
      have he2 : Except.error e ∈ tail := by
        rcases List.mem_cons.mp he with h | h
        · cases h
        · exact h
      obtain ⟨e2, h2⟩ := ih e he2
      exact ⟨e2, by simp [asyncio_gather, h2]⟩

/-- C5 counterexample: a batch of two queries whose first succeeds and whose
second fails: parallel_search propagates the exception and the successful
result is lost, instead of returning one result or failure marker per query. -/
theorem parallel_search_loses_batch_cex :
    parallel_search [Except.ok "r1", Except.error "rate limited"] =
      Except.error "rate limited" := rfl

/-- C5 amended: parallel_search awaits its tasks through asyncio.gather with
no return_exceptions, so it returns the full result list exactly when every
query succeeds, and the failure of any individual query aborts the whole
batch with a propagated exception. -/
theorem parallel_search_all_or_error {ε α : Type} (task_outcomes : List (Except ε α)) :
    (∀ results : List α, parallel_search task_outcomes = Except.ok results ↔
      task_outcomes = results.map Except.ok) ∧
    (∀ e : ε, Except.error e ∈ task_outcomes →
      ∃ e2, parallel_search task_outcomes = Except.error e2) :=
  ⟨fun results => asyncio_gather_ok_iff task_outcomes results,
   fun e he => asyncio_gather_error_of_mem task_outcomes e he⟩

/-- Witness for C5 at a concrete input: a batch whose single query succeeds
returns that result. -/
theorem parallel_search_all_or_error_witness :
    parallel_search ([Except.ok "r1"] : List (Except String String)) =
      Except.ok ["r1"] :=
  ((parallel_search_all_or_error [Except.ok "r1"]).1 ["r1"]).mpr rfl

theorem finding_confidence_bounds (r : Reflection)
    (h : ∀ rf ∈ r.red_flags, 0 ≤ rf.confidence ∧ rf.confidence ≤ 1) :
    0 ≤ finding_confidence r ∧ finding_confidence r ≤ 1 := by
  rw [finding_confidence]
  split
  · norm_num
  · rename_i hne
    have hlen : 0 < (r.red_flags.length : ℚ) := by
      have : r.red_flags ≠ [] := by
        intro hnil
        rw [hnil] at hne
        simp at hne
      have := List.length_pos.mpr this
      exact_mod_cast this
    have hsum0 : 0 ≤ (r.red_flags.map (fun rf => rf.confidence)).sum := by
      refine list_sum_nonneg _ ?_
      intro x hx
      obtain ⟨rf, hrf, hxe⟩ := List.mem_map.mp hx
      exact hxe ▸ (h rf hrf).1
    have hsum1 : (r.red_flags.map (fun rf => rf.confidence)).sum ≤
        ((r.red_flags.map (fun rf => rf.confidence)).length : ℚ) := by
      refine list_sum_le_length _ ?_
      intro x hx
      obtain ⟨rf, hrf, hxe⟩ := List.mem_map.mp hx
      exact hxe ▸ (h rf hrf).2
    rw [List.length_map] at hsum1
    exact ⟨div_nonneg hsum0 (le_of_lt hlen), (div_le_one hlen).mpr hsum1⟩

theorem source_credibility_bounds (r : Reflection)
    (h : ∀ sc ∈ r.source_credibility, 0 ≤ sc.credibility ∧ sc.credibility ≤ 1) :
    0 ≤ source_credibility_score r ∧ source_credibility_score r ≤ 1 := by
  rw [source_credibility_score]
  split
  · norm_num
  · rename_i hne
    have hlen : 0 < (r.source_credibility.length : ℚ) := by
      have : r.source_credibility ≠ [] := by
        intro hnil
        rw [hnil] at hne
        simp at hne
      have := List.length_pos.mpr this
      exact_mod_cast this
    have hsum0 : 0 ≤ (r.source_credibility.map (fun sc => sc.credibility)).sum := by
      refine list_sum_nonneg _ ?_
      intro x hx
      obtain ⟨sc, hsc, hxe⟩ := List.mem_map.mp hx
      exact hxe ▸ (h sc hsc).1
    have hsum1 : (r.source_credibility.map (fun sc => sc.credibility)).sum ≤
        ((r.source_credibility.map (fun sc => sc.credibility)).length : ℚ) := by
      refine list_sum_le_length _ ?_
      intro x hx
      obtain ⟨sc, hsc, hxe⟩ := List.mem_map.mp hx
      exact hxe ▸ (h sc hsc).2
    rw [List.length_map] at hsum1
    exact ⟨div_nonneg hsum0 (le_of_lt hlen), (div_le_one hlen).mpr hsum1⟩

theorem gap_coverage_bounds (r : Reflection) : 0 ≤ gap_coverage r ∧ gap_coverage r ≤ 1 := by
  rw [gap_coverage]
  split
  · norm_num
  · rename_i hne
    constructor
    · refine le_min ?_ (by norm_num)
      refine div_nonneg (by positivity) ?_
      positivity
    · exact min_le_right _ _

theorem cross_validation_bounds (mem : List SearchMem) :
    0 ≤ cross_validation mem ∧ cross_validation mem ≤ 1 := by
  rw [cross_validation]
  split
  · constructor
    · refine le_min ?_ (by norm_num)
      positivity
    · exact min_le_right _ _
  · norm_num

/-- C7: the confidence scorer is the weighted sum of the four components for
all valid inputs (nonnegative weights summing to one, red-flag confidences
and source credibilities in the unit interval), its output lies in the unit
interval for all inputs, the components take the specified default values
(one half with no red flags, one half with no credibility assessments, four
fifths with no identified gaps, zero with no executed queries, and the
normalised sources-per-query average capped at one otherwise), and with all
weights zero except a findings weight of one and a single red flag of
confidence nine tenths the score equals nine tenths. -/
theorem confidence_score_spec :
    (∀ (cfg : Settings) (r : Reflection) (mem : List SearchMem) (d : ℕ),
      0 ≤ cfg.confidence_weight_findings →
      0 ≤ cfg.confidence_weight_sources →
      0 ≤ cfg.confidence_weight_gaps →
      0 ≤ cfg.confidence_weight_validation →
      cfg.confidence_weight_findings + cfg.confidence_weight_sources +
        cfg.confidence_weight_gaps + cfg.confidence_weight_validation = 1 →
      (∀ rf ∈ r.red_flags, 0 ≤ rf.confidence ∧ rf.confidence ≤ 1) →
      (∀ sc ∈ r.source_credibility, 0 ≤ sc.credibility ∧ sc.credibility ≤ 1) →
      calculate_confidence_score cfg r mem d =
        finding_confidence r * cfg.confidence_weight_findings +
        source_credibility_score r * cfg.confidence_weight_sources +
        gap_coverage r * cfg.confidence_weight_gaps +
        cross_validation mem * cfg.confidence_weight_validation) ∧
    (∀ (cfg : Settings) (r : Reflection) (mem : List SearchMem) (d : ℕ),
      0 ≤ calculate_confidence_score cfg r mem d ∧
        calculate_confidence_score cfg r mem d ≤ 1) ∧
    (∀ r : Reflection, r.red_flags = [] → finding_confidence r = 1/2) ∧
    (∀ r : Reflection, r.source_credibility = [] → source_credibility_score r = 1/2) ∧
    (∀ r : Reflection, r.identified_gaps = [] → gap_coverage r = 4/5) ∧
    (∀ mem : List SearchMem, (mem.map (fun m => m.queries.length)).sum = 0 →
      cross_validation mem = 0) ∧
    (∀ mem : List SearchMem, 0 < (mem.map (fun m => m.queries.length)).sum →
      cross_validation mem =
        min ((((mem.map (fun m => m.sources_found)).sum : ℕ) : ℚ) /
          (((mem.map (fun m => m.queries.length)).sum : ℕ) : ℚ) / 5) 1) ∧
    (∀ (mem : List SearchMem) (d : ℕ),
      calculate_confidence_score cfg_findings_only reflection_one_flag mem d = 9/10) := by
  refine ⟨?_, ?_, ?_, ?_, ?_, ?_, ?_, ?_⟩
  · intro cfg r mem d hw1 hw2 hw3 hw4 hsum hrf hsc
    have hf := finding_confidence_bounds r hrf
    have hs := source_credibility_bounds r hsc
    have hg := gap_coverage_bounds r
    have hc := cross_validation_bounds mem
    set S := finding_confidence r * cfg.confidence_weight_findings +
      source_credibility_score r * cfg.confidence_weight_sources +
      gap_coverage r * cfg.confidence_weight_gaps +
      cross_validation mem * cfg.confidence_weight_validation with hS
    have hS0 : 0 ≤ S := by
      have t1 := mul_nonneg hf.1 hw1
      have t2 := mul_nonneg hs.1 hw2
      have t3 := mul_nonneg hg.1 hw3
      have t4 := mul_nonneg hc.1 hw4
      rw [hS]; linarith
    have hS1 : S ≤ 1 := by
      have t1 := mul_le_of_le_one_left hw1 hf.2
      have t2 := mul_le_of_le_one_left hw2 hs.2
      have t3 := mul_le_of_le_one_left hw3 hg.2
      have t4 := mul_le_of_le_one_left hw4 hc.2
      rw [hS]; linarith
    rw [calculate_confidence_score]
    rw [max_eq_left hS0, min_eq_left hS1]
  · intro cfg r mem d
    rw [calculate_confidence_score]
    constructor
    · exact le_min (le_max_right _ _) (by norm_num)
    · exact min_le_right _ _
  · intro r h
    rw [finding_confidence, if_pos (by rw [h]; rfl)]
  · intro r h
    rw [source_credibility_score, if_pos (by rw [h]; rfl)]
  · intro r h
    rw [gap_coverage, if_pos (by rw [h]; rfl)]
  · intro mem h
    rw [cross_validation]
    simp only [h]
    norm_num
  · intro mem h
    rw [cross_validation]
    simp only [if_pos h]
  · intro mem d
    have hfind : finding_confidence reflection_one_flag = 9/10 := by
      rw [finding_confidence]
      norm_num [reflection_one_flag, reflection_continue]
    rw [calculate_confidence_score, hfind]
    have hgap : gap_coverage reflection_one_flag = 4/5 := by
      rw [gap_coverage, if_pos (by norm_num [reflection_one_flag, reflection_continue])]
    have hsrc : source_credibility_score reflection_one_flag = 1/2 := by
      rw [source_credibility_score,
        if_pos (by norm_num [reflection_one_flag, reflection_continue])]
    rw [hgap, hsrc]
    show min (max ((9:ℚ)/10 * 1 + 1/2 * 0 + 4/5 * 0 + cross_validation mem * 0) 0) 1 = 9/10
    rw [mul_zero, mul_zero, mul_zero]
    norm_num

/-- Witness for C7 at a concrete input: the default-weight configuration and
an empty reflection satisfy the validity hypotheses, and the score is the
unclamped weighted sum. -/
theorem confidence_score_spec_witness :
    calculate_confidence_score cfg0 reflection_continue [] 0 =
      finding_confidence reflection_continue * cfg0.confidence_weight_findings +
      source_credibility_score reflection_continue * cfg0.confidence_weight_sources +
      gap_coverage reflection_continue * cfg0.confidence_weight_gaps +
      cross_validation [] * cfg0.confidence_weight_validation :=
  confidence_score_spec.1 cfg0 reflection_continue [] 0
    (by norm_num [cfg0]) (by norm_num [cfg0]) (by norm_num [cfg0]) (by norm_num [cfg0])
    (by norm_num [cfg0])
    (by intro rf hrf; simp [reflection_continue] at hrf)
    (by intro sc hsc; simp [reflection_continue] at hsc)

/-- C1: should_continue_research applies its five rules in strict order with
first match winning: at depth at least max_depth it finishes with reason
max_depth_reached independently of the confidence score; below max depth a
confidence score at or above the threshold finishes with reason
confidence_threshold_met; next a latest reflection recommending stop finishes
with reason reflection_recommended_stop; next detected stagnation routes to
the connection-mapping branch without terminating; otherwise it routes back
to query planning. -/
theorem routing_priority_order (cfg : Settings) (s : RState) :
    (s.max_depth ≤ s.current_depth →
      should_continue_research cfg s =
        ({ s with termination_reason := some "max_depth_reached" }, SCRRoute.finish)) ∧
    (s.current_depth < s.max_depth → cfg.confidence_threshold ≤ s.confidence_score →
      should_continue_research cfg s =
        ({ s with termination_reason := some "confidence_threshold_met" },
          SCRRoute.finish)) ∧
    (s.current_depth < s.max_depth → s.confidence_score < cfg.confidence_threshold →
      ∀ latest, s.reflection_memory.getLast? = some latest →
      latest.should_continue = false →
      should_continue_research cfg s =
        ({ s with termination_reason := some "reflection_recommended_stop" },
          SCRRoute.finish)) ∧
    (s.current_depth < s.max_depth → s.confidence_score < cfg.confidence_threshold →
      (∀ latest, s.reflection_memory.getLast? = some latest →
        latest.should_continue = true) →
      check_stagnation s.reflection_memory cfg.stagnation_check_iterations = true →
      should_continue_research cfg s = (s, SCRRoute.analyze)) ∧
    (s.current_depth < s.max_depth → s.confidence_score < cfg.confidence_threshold →
      (∀ latest, s.reflection_memory.getLast? = some latest →
        latest.should_continue = true) →
      check_stagnation s.reflection_memory cfg.stagnation_check_iterations = false →
      should_continue_research cfg s =
        ({ s with current_depth := s.current_depth + 1 }, SCRRoute.continue_search)) := by
  refine ⟨?_, ?_, ?_, ?_, ?_⟩
  · intro h
    rw [should_continue_research, if_pos h]
  · intro h1 h2
    rw [should_continue_research, if_neg (not_le.mpr h1), if_pos h2]
  · intro h1 h2 latest hl hstop
    rw [should_continue_research, if_neg (not_le.mpr h1), if_neg (not_le.mpr h2)]
    simp [hl, hstop]
  · intro h1 h2 hcont hstag
    rw [should_continue_research, if_neg (not_le.mpr h1), if_neg (not_le.mpr h2)]
    cases hl : s.reflection_memory.getLast? with
    | none => simp [hstag]
    | some latest => simp [hcont latest hl, hstag]
  · intro h1 h2 hcont hstag
    rw [should_continue_research, if_neg (not_le.mpr h1), if_neg (not_le.mpr h2)]
    cases hl : s.reflection_memory.getLast? with
    | none => simp [hstag]
    | some latest => simp [hcont latest hl, hstag]

/-- Witness for C1 at a concrete input: a state already at its depth ceiling
is routed to finish with reason max_depth_reached. -/
theorem routing_priority_order_witness :
    should_continue_research cfg0 (initial_state "sess-1" "Acme Corp" none 0) =
      ({ initial_state "sess-1" "Acme Corp" none 0 with
          termination_reason := some "max_depth_reached" }, SCRRoute.finish) :=
  (routing_priority_order cfg0 (initial_state "sess-1" "Acme Corp" none 0)).1
    (by decide)

theorem lookup_append_single (st : List (String × PyVal)) (k : String) (v : PyVal)
    (key : String) :
    (st ++ [(k, v)]).lookup key =
      match st.lookup key with
      | some w => some w
      | none => if key == k then some v else none := by
  induction st with
  | nil =>
    simp only [List.nil_append, List.lookup]
    cases h : key == k <;> simp [h]
  | cons hd t ih =>
    obtain ⟨a, b⟩ := hd
    simp only [List.cons_append, List.lookup]
    cases h : key == a <;> simp [h, ih]

theorem lookup_setdefault_of_some {st : List (String × PyVal)} {key : String} {w : PyVal}
    (k : String) (v : PyVal) (h : st.lookup key = some w) :
    (py_setdefault st k v).lookup key = some w := by
  rw [py_setdefault]
  split
  · exact h
  · rw [lookup_append_single, h]

theorem lookup_setdefault_ne {st : List (String × PyVal)} {key k : String} (v : PyVal)
    (h : (key == k) = false) :
    (py_setdefault st k v).lookup key = st.lookup key := by
  rw [py_setdefault]
  split
  · rfl
  · rw [lookup_append_single]
    cases hst : st.lookup key <;> simp [h]

theorem foldl_setdefault_of_some {key : String} {w : PyVal} :
    ∀ (defaults : List (String × PyVal)) (st : List (String × PyVal)),
      st.lookup key = some w →
      (defaults.foldl (fun acc kv => py_setdefault acc kv.1 kv.2) st).lookup key =
        some w := by
  intro defaults
  induction defaults with
  | nil => intro st h; exact h
  | cons kv t ih =>
    intro st h
    simp only [List.foldl_cons]
    exact ih _ (lookup_setdefault_of_some kv.1 kv.2 h)

theorem foldl_setdefault_of_forall_ne {key : String} :
    ∀ (defaults : List (String × PyVal)) (st : List (String × PyVal)),
      (∀ kv ∈ defaults, (key == kv.1) = false) →
      (defaults.foldl (fun acc kv => py_setdefault acc kv.1 kv.2) st).lookup key =
        st.lookup key := by
  intro defaults
  induction defaults with
  | nil => intro st _; rfl
  | cons kv t ih =>
    intro st h
    simp only [List.foldl_cons]
    rw [ih _ (fun kv2 hkv2 => h kv2 (List.mem_cons_of_mem kv hkv2)),
      lookup_setdefault_ne kv.2 (h kv (List.mem_cons_self kv t))]

/-- C9: in the state dictionary produced by session initialization (the
initial_state literal of DeepResearchAgent.research passed through
initialize_session), pending_queries, queries_executed and search_memory are
present and empty and the four counters are present and zero, but
reflection_memory, discovered_entities and risk_indicators are absent, so
the direct subscript reads of analyze_and_reflect do not find their keys:
this evaluates the code at the failing input for the code_bug verdict. -/
theorem init_session_missing_collections (session_id subject : String)
    (subject_context : Option String) (max_depth : ℤ) :
    (initialized_dict session_id subject subject_context max_depth).lookup
        "pending_queries" = some (PyVal.list []) ∧
    (initialized_dict session_id subject subject_context max_depth).lookup
        "queries_executed" = some (PyVal.list []) ∧
    (initialized_dict session_id subject subject_context max_depth).lookup
        "search_memory" = some (PyVal.list []) ∧
    (initialized_dict session_id subject subject_context max_depth).lookup
        "search_count" = some (PyVal.int 0) ∧
    (initialized_dict session_id subject subject_context max_depth).lookup
        "extraction_count" = some (PyVal.int 0) ∧
    (initialized_dict session_id subject subject_context max_depth).lookup
        "error_count" = some (PyVal.int 0) ∧
    (initialized_dict session_id subject subject_context max_depth).lookup
        "iteration_count" = some (PyVal.int 0) ∧
    (initialized_dict session_id subject subject_context max_depth).lookup
        "reflection_memory" = none ∧
    (initialized_dict session_id subject subject_context max_depth).lookup
        "discovered_entities" = none ∧
    (initialized_dict session_id subject subject_context max_depth).lookup
        "risk_indicators" = none ∧
    analyze_subscripts_present
      (initialized_dict session_id subject subject_context max_depth) = false := by
  have hsome : ∀ (key : String) (w : PyVal),
      (main_initial_dict session_id subject subject_context max_depth).lookup key =
        some w →
      (initialized_dict session_id subject subject_context max_depth).lookup key =
        some w := by
    intro key w h
    rw [initialized_dict, init_session_dict]
    exact foldl_setdefault_of_some init_session_defaults _ h
  have habsent : ∀ key : String,
      (∀ kv ∈ init_session_defaults, (key == kv.1) = false) →
      (main_initial_dict session_id subject subject_context max_depth).lookup key =
        none →
      (initialized_dict session_id subject subject_context max_depth).lookup key =
        none := by
    intro key hne h
    rw [initialized_dict, init_session_dict,
      foldl_setdefault_of_forall_ne init_session_defaults _ hne, h]
  have hrefl : (initialized_dict session_id subject subject_context max_depth).lookup
      "reflection_memory" = none := by
    refine habsent _ (by simp [init_session_defaults]) ?_
    simp [main_initial_dict, List.lookup]
  have hdisc : (initialized_dict session_id subject subject_context max_depth).lookup
      "discovered_entities" = none := by
    refine habsent _ (by simp [init_session_defaults]) ?_
    simp [main_initial_dict, List.lookup]
  have hrisk : (initialized_dict session_id subject subject_context max_depth).lookup
      "risk_indicators" = none := by
    refine habsent _ (by simp [init_session_defaults]) ?_
    simp [main_initial_dict, List.lookup]
  refine ⟨hsome _ _ (by simp [main_initial_dict, List.lookup]),
    hsome _ _ (by simp [main_initial_dict, List.lookup]), ?_,
    hsome _ _ (by simp [main_initial_dict, List.lookup]),
    hsome _ _ (by simp [main_initial_dict, List.lookup]),
    hsome _ _ (by simp [main_initial_dict, List.lookup]),
    hsome _ _ (by simp [main_initial_dict, List.lookup]),
    hrefl, hdisc, hrisk, ?_⟩
  · -- search_memory is absent from the main dictionary but added empty by the
    -- initialize defaults
    rw [initialized_dict, init_session_dict]
    have hbase : (main_initial_dict session_id subject subject_context
        max_depth).lookup "search_memory" = none := by
      simp [main_initial_dict, List.lookup]
    rw [show init_session_defaults = init_session_defaults.dropLast ++
        [("search_memory", PyVal.list [])] from rfl, List.foldl_append]
    have hpre : (List.foldl (fun acc kv => py_setdefault acc kv.1 kv.2)
        (main_initial_dict session_id subject subject_context max_depth)
        init_session_defaults.dropLast).lookup "search_memory" = none := by
      rw [foldl_setdefault_of_forall_ne _ _ (by simp [init_session_defaults]), hbase]
    generalize hg : List.foldl (fun acc kv => py_setdefault acc kv.1 kv.2)
        (main_initial_dict session_id subject subject_context max_depth)
        init_session_defaults.dropLast = stp at hpre ⊢
    simp only [List.foldl_cons, List.foldl_nil]
    rw [py_setdefault]
    split
    · rename_i hpres
      exfalso
      rw [hpre] at hpres
      simp at hpres
    · rw [lookup_append_single, hpre]
      simp
  · rw [analyze_subscripts_present, hrefl, hrisk]
    rfl

/-! Per-node preservation lemmas used by the trace invariants. -/

theorem gsq_termination (s : RState) (g : Except String (List String)) :
    (generate_search_queries s g).termination_reason = s.termination_reason := by
  cases g <;> rfl

theorem gsq_max_depth (s : RState) (g : Except String (List String)) :
    (generate_search_queries s g).max_depth = s.max_depth := by
  cases g <;> rfl

theorem gsq_depth_le (s : RState) (g : Except String (List String)) :
    s.current_depth ≤ (generate_search_queries s g).current_depth := by
  cases g with
  | ok q => exact Nat.le_succ s.current_depth
  | error e => exact Nat.le_refl s.current_depth

theorem exec_termination (s : RState) (n : ℕ) :
    (execute_web_search s n).termination_reason = s.termination_reason := rfl

theorem exec_max_depth (s : RState) (n : ℕ) :
    (execute_web_search s n).max_depth = s.max_depth := rfl

theorem exec_depth (s : RState) (n : ℕ) :
    (execute_web_search s n).current_depth = s.current_depth := rfl

theorem analyze_termination (cfg : Settings) (s : RState) (r : Reflection)
    (m : List String) :
    (analyze_and_reflect cfg s r m).termination_reason = s.termination_reason := by
  rw [analyze_and_reflect]
  split <;> rfl

theorem analyze_max_depth (cfg : Settings) (s : RState) (r : Reflection)
    (m : List String) :
    (analyze_and_reflect cfg s r m).max_depth = s.max_depth := by
  rw [analyze_and_reflect]
  split <;> rfl

theorem analyze_depth (cfg : Settings) (s : RState) (r : Reflection) (m : List String) :
    (analyze_and_reflect cfg s r m).current_depth = s.current_depth := by
  rw [analyze_and_reflect]
  split <;> rfl

theorem scr_cases (cfg : Settings) (s : RState) :
    (should_continue_research cfg s =
        ({ s with termination_reason := some "max_depth_reached" }, SCRRoute.finish) ∧
      s.max_depth ≤ s.current_depth) ∨
    (should_continue_research cfg s =
        ({ s with termination_reason := some "confidence_threshold_met" },
          SCRRoute.finish) ∧
      s.current_depth < s.max_depth) ∨
    (should_continue_research cfg s =
        ({ s with termination_reason := some "reflection_recommended_stop" },
          SCRRoute.finish) ∧
      s.current_depth < s.max_depth) ∨
    (should_continue_research cfg s = (s, SCRRoute.analyze) ∧
      s.current_depth < s.max_depth) ∨
    (should_continue_research cfg s =
        ({ s with current_depth := s.current_depth + 1 }, SCRRoute.continue_search) ∧
      s.current_depth < s.max_depth) := by
  rw [should_continue_research]
  split
  · rename_i hle
    exact Or.inl ⟨rfl, hle⟩
  · rename_i hgt
    split
    · exact Or.inr (Or.inl ⟨rfl, Nat.lt_of_not_le hgt⟩)
    · split
      · split
        · exact Or.inr (Or.inr (Or.inl ⟨rfl, Nat.lt_of_not_le hgt⟩))
        · split
          · exact Or.inr (Or.inr (Or.inr (Or.inl ⟨rfl, Nat.lt_of_not_le hgt⟩)))
          · exact Or.inr (Or.inr (Or.inr (Or.inr ⟨rfl, Nat.lt_of_not_le hgt⟩)))
      · split
        · exact Or.inr (Or.inr (Or.inr (Or.inl ⟨rfl, Nat.lt_of_not_le hgt⟩)))
        · exact Or.inr (Or.inr (Or.inr (Or.inr ⟨rfl, Nat.lt_of_not_le hgt⟩)))

theorem scr_max_depth (cfg : Settings) (s : RState) :
    (should_continue_research cfg s).1.max_depth = s.max_depth := by
  rcases scr_cases cfg s with ⟨he, _⟩ | ⟨he, _⟩ | ⟨he, _⟩ | ⟨he, _⟩ | ⟨he, _⟩ <;>
    rw [he]

theorem scr_depth_le (cfg : Settings) (s : RState) :
    s.current_depth ≤ (should_continue_research cfg s).1.current_depth := by
  rcases scr_cases cfg s with ⟨he, _⟩ | ⟨he, _⟩ | ⟨he, _⟩ | ⟨he, _⟩ | ⟨he, _⟩ <;>
    rw [he]
  all_goals first
    | exact Nat.le_refl _
    | exact Nat.le_succ _

theorem scr_continue_facts (cfg : Settings) (s : RState)
    (h : (should_continue_research cfg s).2 = SCRRoute.continue_search) :
    (should_continue_research cfg s).1 =
      { s with current_depth := s.current_depth + 1 } ∧
    s.current_depth < s.max_depth := by
  rcases scr_cases cfg s with ⟨he, hc⟩ | ⟨he, hc⟩ | ⟨he, hc⟩ | ⟨he, hc⟩ | ⟨he, hc⟩ <;>
    rw [he] at h ⊢
  all_goals first
    | exact ⟨rfl, hc⟩
    | cases h

theorem scr_analyze_facts (cfg : Settings) (s : RState)
    (h : (should_continue_research cfg s).2 = SCRRoute.analyze) :
    (should_continue_research cfg s).1 = s ∧ s.current_depth < s.max_depth := by
  rcases scr_cases cfg s with ⟨he, hc⟩ | ⟨he, hc⟩ | ⟨he, hc⟩ | ⟨he, hc⟩ | ⟨he, hc⟩ <;>
    rw [he] at h ⊢
  all_goals first
    | exact ⟨rfl, hc⟩
    | cases h

theorem hnq_search_more_facts (s : RState)
    (h : (has_new_queries s).2 = HNQRoute.search_more) :
    (has_new_queries s).1 = s := by
  rw [has_new_queries] at h ⊢
  split at h
  · cases h
  · rename_i hne
    rw [if_neg hne]

theorem hnq_synthesize_facts (s : RState)
    (h : (has_new_queries s).2 = HNQRoute.synthesize) :
    (has_new_queries s).1 =
      { s with termination_reason := some "no_additional_queries" } := by
  rw [has_new_queries] at h ⊢
  split at h
  · rename_i hemp
    rw [if_pos hemp]
  · cases h

theorem hnq_max_depth (s : RState) : (has_new_queries s).1.max_depth = s.max_depth := by
  rw [has_new_queries]
  split <;> rfl

theorem hnq_depth (s : RState) :
    (has_new_queries s).1.current_depth = s.current_depth := by
  rw [has_new_queries]
  split <;> rfl

theorem synth_success_max_depth (s : RState) :
    (synthesize_report_success s).max_depth = s.max_depth := rfl

theorem synth_success_depth (s : RState) :
    (synthesize_report_success s).current_depth = s.current_depth := rfl

theorem synth_failure_max_depth (s : RState) (e : String) :
    (synthesize_report_failure s e).max_depth = s.max_depth := rfl

theorem synth_failure_depth (s : RState) (e : String) :
    (synthesize_report_failure s e).current_depth = s.current_depth := rfl

theorem step_max_depth (cfg : Settings) (node : Node) (s : RState) (e : EnvInput)
    (next : Node) (s2 : RState) (h : step cfg node s e = some (next, s2)) :
    s2.max_depth = s.max_depth := by
  cases node with
  | init_session =>
    simp only [step, Option.some.injEq, Prod.mk.injEq] at h
    rw [← h.2]
  | generate_queries =>
    simp only [step, Option.some.injEq, Prod.mk.injEq] at h
    rw [← h.2, gsq_max_depth]
  | execute_search =>
    simp only [step, Option.some.injEq, Prod.mk.injEq] at h
    rw [← h.2, exec_max_depth]
  | analyze_and_reflect =>
    simp only [step] at h
    split at h <;>
      (simp only [Option.some.injEq, Prod.mk.injEq] at h
       rw [← h.2, scr_max_depth, analyze_max_depth])
  | map_connections =>
    simp only [step, Option.some.injEq, Prod.mk.injEq] at h
    rw [← h.2]
  | refine_queries =>
    simp only [step] at h
    split at h <;>
      (simp only [Option.some.injEq, Prod.mk.injEq] at h
       rw [← h.2, hnq_max_depth, gsq_max_depth])
  | synthesize_report =>
    simp only [step] at h
    split at h <;>
      (simp only [Option.some.injEq, Prod.mk.injEq] at h
       rw [← h.2])
    · rw [synth_success_max_depth]
    · rw [synth_failure_max_depth]
  | graph_end => exact absurd h (by simp [step])
  | failed => exact absurd h (by simp [step])

theorem step_depth_le (cfg : Settings) (node : Node) (s : RState) (e : EnvInput)
    (next : Node) (s2 : RState) (h : step cfg node s e = some (next, s2)) :
    s.current_depth ≤ s2.current_depth := by
  cases node with
  | init_session =>
    simp only [step, Option.some.injEq, Prod.mk.injEq] at h
    rw [← h.2]
  | generate_queries =>
    simp only [step, Option.some.injEq, Prod.mk.injEq] at h
    rw [← h.2]
    exact gsq_depth_le s e.queryGen
  | execute_search =>
    simp only [step, Option.some.injEq, Prod.mk.injEq] at h
    rw [← h.2, exec_depth]
  | analyze_and_reflect =>
    simp only [step] at h
    split at h <;>
      (simp only [Option.some.injEq, Prod.mk.injEq] at h
       rw [← h.2]
       calc s.current_depth =
            (analyze_and_reflect cfg s e.reflection e.mergedEntities).current_depth :=
              (analyze_depth cfg s e.reflection e.mergedEntities).symm
         _ ≤ _ := scr_depth_le cfg _)
  | map_connections =>
    simp only [step, Option.some.injEq, Prod.mk.injEq] at h
    rw [← h.2]
  | refine_queries =>
    simp only [step] at h
    split at h <;>
      (simp only [Option.some.injEq, Prod.mk.injEq] at h
       rw [← h.2, hnq_depth]
       exact gsq_depth_le s e.queryGen)
  | synthesize_report =>
    simp only [step] at h
    split at h <;>
      (simp only [Option.some.injEq, Prod.mk.injEq] at h
       rw [← h.2])
    · rw [synth_success_depth]
    · rw [synth_failure_depth]
  | graph_end => exact absurd h (by simp [step])
  | failed => exact absurd h (by simp [step])

/-- The planning-point invariant: at the entry point and at every planning or
pre-planning node, the current depth is within the ceiling. -/
def planning_inv (node : Node) (s : RState) : Prop :=
  (node = Node.init_session ∨ node = Node.generate_queries ∨
    node = Node.refine_queries ∨ node = Node.map_connections) →
  s.current_depth ≤ s.max_depth

theorem step_planning_inv (cfg : Settings) (node : Node) (s : RState) (e : EnvInput)
    (next : Node) (s2 : RState) (hinv : planning_inv node s)
    (h : step cfg node s e = some (next, s2)) : planning_inv next s2 := by
  cases node with
  | init_session =>
    simp only [step, Option.some.injEq, Prod.mk.injEq] at h
    intro _
    rw [← h.1] at *
    rw [← h.2]
    exact hinv (Or.inl rfl)
  | generate_queries =>
    simp only [step, Option.some.injEq, Prod.mk.injEq] at h
    rw [← h.1]
    intro hor
    simp at hor
  | execute_search =>
    simp only [step, Option.some.injEq, Prod.mk.injEq] at h
    rw [← h.1]
    intro hor
    simp at hor
  | analyze_and_reflect =>
    simp only [step] at h
    split at h
    · rename_i hroute
      simp only [Option.some.injEq, Prod.mk.injEq] at h
      obtain ⟨hfacts, hlt⟩ := scr_continue_facts cfg _ hroute
      intro _
      rw [← h.2, hfacts]
      have hd := analyze_depth cfg s e.reflection e.mergedEntities
      have hm := analyze_max_depth cfg s e.reflection e.mergedEntities
      simp only []
      omega
    · rename_i hroute
      simp only [Option.some.injEq, Prod.mk.injEq] at h
      obtain ⟨hfacts, hlt⟩ := scr_analyze_facts cfg _ hroute
      intro _
      rw [← h.2, hfacts]
      omega
    · simp only [Option.some.injEq, Prod.mk.injEq] at h
      rw [← h.1]
      intro hor
      simp at hor
  | map_connections =>
    simp only [step, Option.some.injEq, Prod.mk.injEq] at h
    intro _
    rw [← h.2]
    exact hinv (Or.inr (Or.inr (Or.inr rfl)))
  | refine_queries =>
    simp only [step] at h
    split at h <;>
      (simp only [Option.some.injEq, Prod.mk.injEq] at h
       rw [← h.1]
       intro hor
       simp at hor)
  | synthesize_report =>
    simp only [step] at h
    split at h <;>
      (simp only [Option.some.injEq, Prod.mk.injEq] at h
       rw [← h.1]
       intro hor
       simp at hor)
  | graph_end => exact absurd h (by simp [step])
  | failed => exact absurd h (by simp [step])

theorem run_planning_inv (cfg : Settings) (env : ℕ → EnvInput)
    (sid subj : String) (ctx : Option String) (maxD : ℕ) :
    ∀ (k : ℕ) (node : Node) (s : RState),
      run cfg env (initial_state sid subj ctx maxD) k = some (node, s) →
      planning_inv node s := by
  intro k
  induction k with
  | zero =>
    intro node s h
    simp only [run, Option.some.injEq, Prod.mk.injEq] at h
    rw [← h.1, ← h.2]
    intro _
    exact Nat.zero_le _
  | succ k ih =>
    intro node s h
    rw [run] at h
    obtain ⟨⟨m, t⟩, hm, hstep⟩ := Option.bind_eq_some.mp h
    exact step_planning_inv cfg m t (env k) node s (ih m t hm) hstep

theorem run_depth_mono (cfg : Settings) (env : ℕ → EnvInput) (init : RState) :
    ∀ (d k : ℕ) (n1 : Node) (s1 : RState) (n2 : Node) (s2 : RState),
      run cfg env init k = some (n1, s1) → run cfg env init (k + d) = some (n2, s2) →
      s1.current_depth ≤ s2.current_depth := by
  intro d
  induction d with
  | zero =>
    intro k n1 s1 n2 s2 h1 h2
    rw [Nat.add_zero, h1, Option.some.injEq, Prod.mk.injEq] at h2
    rw [h2.2]
  | succ d ih =>
    intro k n1 s1 n2 s2 h1 h2
    rw [Nat.add_succ, run] at h2
    obtain ⟨⟨m, t⟩, hm, hstep⟩ := Option.bind_eq_some.mp h2
    exact Nat.le_trans (ih k n1 s1 m t h1 hm)
      (step_depth_le cfg m t (env (k + d)) n2 s2 hstep)

/-- The termination-reason placement invariant: a non-null termination_reason
only ever occurs at the synthesis node or at a terminal outcome. -/
def reason_inv (node : Node) (s : RState) : Prop :=
  s.termination_reason ≠ none →
  node = Node.synthesize_report ∨ node = Node.graph_end ∨ node = Node.failed

theorem step_reason_inv (cfg : Settings) (node : Node) (s : RState) (e : EnvInput)
    (next : Node) (s2 : RState) (hinv : reason_inv node s)
    (h : step cfg node s e = some (next, s2)) : reason_inv next s2 := by
  cases node with
  | init_session =>
    simp only [step, Option.some.injEq, Prod.mk.injEq] at h
    intro hr
    rw [← h.2] at hr
    rcases hinv hr with hc | hc | hc <;> cases hc
  | generate_queries =>
    simp only [step, Option.some.injEq, Prod.mk.injEq] at h
    intro hr
    rw [← h.2, gsq_termination] at hr
    rcases hinv hr with hc | hc | hc <;> cases hc
  | execute_search =>
    simp only [step, Option.some.injEq, Prod.mk.injEq] at h
    intro hr
    rw [← h.2, exec_termination] at hr
    rcases hinv hr with hc | hc | hc <;> cases hc
  | analyze_and_reflect =>
    simp only [step] at h
    split at h
    · rename_i hroute
      simp only [Option.some.injEq, Prod.mk.injEq] at h
      obtain ⟨hfacts, _⟩ := scr_continue_facts cfg _ hroute
      intro hr
      rw [← h.2, hfacts] at hr
      simp only [] at hr
      rw [analyze_termination] at hr
      rcases hinv hr with hc | hc | hc <;> cases hc
    · rename_i hroute
      simp only [Option.some.injEq, Prod.mk.injEq] at h
      obtain ⟨hfacts, _⟩ := scr_analyze_facts cfg _ hroute
      intro hr
      rw [← h.2, hfacts, analyze_termination] at hr
      rcases hinv hr with hc | hc | hc <;> cases hc
    · simp only [Option.some.injEq, Prod.mk.injEq] at h
      intro _
      exact Or.inl h.1.symm
  | map_connections =>
    simp only [step, Option.some.injEq, Prod.mk.injEq] at h
    intro hr
    rw [← h.2] at hr
    rcases hinv hr with hc | hc | hc <;> cases hc
  | refine_queries =>
    simp only [step] at h
    split at h
    · rename_i hroute
      simp only [Option.some.injEq, Prod.mk.injEq] at h
      intro hr
      rw [← h.2, hnq_search_more_facts _ hroute, gsq_termination] at hr
      rcases hinv hr with hc | hc | hc <;> cases hc
    · simp only [Option.some.injEq, Prod.mk.injEq] at h
      intro _
      exact Or.inl h.1.symm
  | synthesize_report =>
    simp only [step] at h
    split at h <;> simp only [Option.some.injEq, Prod.mk.injEq] at h
    · intro _
      exact Or.inr (Or.inl h.1.symm)
    · intro _
      exact Or.inr (Or.inr h.1.symm)
  | graph_end => exact absurd h (by simp [step])
  | failed => exact absurd h (by simp [step])

theorem run_reason_inv (cfg : Settings) (env : ℕ → EnvInput)
    (sid subj : String) (ctx : Option String) (maxD : ℕ) :
    ∀ (k : ℕ) (node : Node) (s : RState),
      run cfg env (initial_state sid subj ctx maxD) k = some (node, s) →
      reason_inv node s := by
  intro k
  induction k with
  | zero =>
    intro node s h
    simp only [run, Option.some.injEq, Prod.mk.injEq] at h
    rw [← h.1, ← h.2]
    intro hr
    exact absurd rfl hr
  | succ k ih =>
    intro node s h
    rw [run] at h
    obtain ⟨⟨m, t⟩, hm, hstep⟩ := Option.bind_eq_some.mp h
    exact step_reason_inv cfg m t (env k) node s (ih m t hm) hstep

theorem step_graph_end (cfg : Settings) (node : Node) (s : RState) (e : EnvInput)
    (s2 : RState) (h : step cfg node s e = some (Node.graph_end, s2)) :
    s2.should_continue = false ∧ s2.termination_reason ≠ none := by
  cases node with
  | init_session =>
    simp only [step, Option.some.injEq, Prod.mk.injEq] at h
    exact absurd h.1 (by decide)
  | generate_queries =>
    simp only [step, Option.some.injEq, Prod.mk.injEq] at h
    exact absurd h.1 (by decide)
  | execute_search =>
    simp only [step, Option.some.injEq, Prod.mk.injEq] at h
    exact absurd h.1 (by decide)
  | analyze_and_reflect =>
    simp only [step] at h
    split at h <;>
      (simp only [Option.some.injEq, Prod.mk.injEq] at h
       exact absurd h.1 (by decide))
  | map_connections =>
    simp only [step, Option.some.injEq, Prod.mk.injEq] at h
    exact absurd h.1 (by decide)
  | refine_queries =>
    simp only [step] at h
    split at h <;>
      (simp only [Option.some.injEq, Prod.mk.injEq] at h
       exact absurd h.1 (by decide))
  | synthesize_report =>
    simp only [step] at h
    split at h <;> simp only [Option.some.injEq, Prod.mk.injEq] at h
    · rw [← h.2]
      constructor
      · rfl
      · rw [synthesize_report_success]
        cases hs : s.termination_reason <;> simp [hs]
    · exact absurd h.1 (by decide)
  | graph_end => exact absurd h (by simp [step])
  | failed => exact absurd h (by simp [step])

/-- C3: along every traversal of the graph from a fresh session state,
current_depth is non-decreasing, and at every planning decision point (every
configuration whose node is a query-planning node) current_depth is within
max_depth. -/
theorem depth_invariants (cfg : Settings) (env : ℕ → EnvInput)
    (sid subj : String) (ctx : Option String) (maxD : ℕ) :
    (∀ (k l : ℕ) (n1 : Node) (s1 : RState) (n2 : Node) (s2 : RState), k ≤ l →
      run cfg env (initial_state sid subj ctx maxD) k = some (n1, s1) →
      run cfg env (initial_state sid subj ctx maxD) l = some (n2, s2) →
      s1.current_depth ≤ s2.current_depth) ∧
    (∀ (k : ℕ) (node : Node) (s : RState),
      run cfg env (initial_state sid subj ctx maxD) k = some (node, s) →
      node = Node.generate_queries ∨ node = Node.refine_queries →
      s.current_depth ≤ s.max_depth) := by
  constructor
  · intro k l n1 s1 n2 s2 hkl h1 h2
    obtain ⟨d, hd⟩ := Nat.exists_eq_add_of_le hkl
    rw [hd] at h2
    exact run_depth_mono cfg env (initial_state sid subj ctx maxD) d k n1 s1 n2 s2 h1 h2
  · intro k node s h hor
    refine run_planning_inv cfg env sid subj ctx maxD k node s h ?_
    rcases hor with hn | hn
    · exact Or.inr (Or.inl hn)
    · exact Or.inr (Or.inr (Or.inl hn))

/-- Witness for C3 at a concrete input: after one step the traversal stands at
the query-planning node with depth zero, within the ceiling one. -/
theorem depth_invariants_witness :
    (initial_state "sess-1" "Acme Corp" none 1).current_depth ≤
      (initial_state "sess-1" "Acme Corp" none 1).max_depth :=
  (depth_invariants cfg0 envA "sess-1" "Acme Corp" none 1).2 1
    Node.generate_queries (initial_state "sess-1" "Acme Corp" none 1) rfl
    (Or.inl rfl)

theorem gsq_should_continue (s : RState) (g : Except String (List String)) :
    (generate_search_queries s g).should_continue = s.should_continue := by
  cases g <;> rfl

theorem exec_should_continue (s : RState) (n : ℕ) :
    (execute_web_search s n).should_continue = s.should_continue := rfl

theorem exec_search_memory_ne (s : RState) (n : ℕ) :
    (execute_web_search s n).search_memory ≠ [] := by
  simp [execute_web_search]

/-- The invariant of the source traversal: before the abort, the session has
never written termination_reason or flipped should_continue, has never moved
past the analysis stage, and arrives at the analysis node with non-empty
search memory (the search node appends a record unconditionally). -/
def src_session_inv (node : Node) (s : RState) : Prop :=
  s.termination_reason = none ∧ s.should_continue = true ∧
  (node = Node.init_session ∨ node = Node.generate_queries ∨
    node = Node.execute_search ∨ node = Node.analyze_and_reflect) ∧
  (node = Node.analyze_and_reflect → s.search_memory ≠ [])

theorem step_src_session_inv (cfg : Settings) (node : Node) (s : RState) (e : EnvInput)
    (next : Node) (s2 : RState) (hinv : src_session_inv node s)
    (h : step_src cfg node s e = some (next, s2)) : src_session_inv next s2 := by
  obtain ⟨hreason, hcont, hnodes, hmem⟩ := hinv
  cases node with
  | init_session =>
    simp only [step_src, step, Option.some.injEq, Prod.mk.injEq] at h
    rw [← h.1, ← h.2]
    exact ⟨hreason, hcont, Or.inr (Or.inl rfl), by intro hc; cases hc⟩
  | generate_queries =>
    simp only [step_src, step, Option.some.injEq, Prod.mk.injEq] at h
    rw [← h.1, ← h.2]
    refine ⟨?_, ?_, Or.inr (Or.inr (Or.inl rfl)), by intro hc; cases hc⟩
    · rw [gsq_termination, hreason]
    · rw [gsq_should_continue, hcont]
  | execute_search =>
    simp only [step_src, step, Option.some.injEq, Prod.mk.injEq] at h
    rw [← h.1, ← h.2]
    refine ⟨?_, ?_, Or.inr (Or.inr (Or.inr rfl)), fun _ => ?_⟩
    · rw [exec_termination, hreason]
    · rw [exec_should_continue, hcont]
    · exact exec_search_memory_ne s e.sourcesFound
  | analyze_and_reflect =>
    have hne := hmem rfl
    simp only [step_src] at h
    rw [if_neg (by simp [List.isEmpty_iff, hne])] at h
    cases h
  | map_connections =>
    rcases hnodes with hc | hc | hc | hc <;> cases hc
  | refine_queries =>
    rcases hnodes with hc | hc | hc | hc <;> cases hc
  | synthesize_report =>
    rcases hnodes with hc | hc | hc | hc <;> cases hc
  | graph_end =>
    rcases hnodes with hc | hc | hc | hc <;> cases hc
  | failed =>
    rcases hnodes with hc | hc | hc | hc <;> cases hc

theorem run_src_session_inv (cfg : Settings) (env : ℕ → EnvInput)
    (sid subj : String) (ctx : Option String) (maxD : ℕ) :
    ∀ (k : ℕ) (node : Node) (s : RState),
      run_src cfg env (initial_state sid subj ctx maxD) k = some (node, s) →
      src_session_inv node s := by
  intro k
  induction k with
  | zero =>
    intro node s h
    simp only [run_src, Option.some.injEq, Prod.mk.injEq] at h
    rw [← h.1, ← h.2]
    exact ⟨rfl, rfl, Or.inl rfl, by intro hc; cases hc⟩
  | succ k ih =>
    intro node s h
    rw [run_src] at h
    obtain ⟨⟨m, t⟩, hm, hstep⟩ := Option.bind_eq_some.mp h
    exact step_src_session_inv cfg m t (env k) node s (ih m t hm) hstep

/-- C2 counterexample: a concrete session (default max_depth five, query
generation succeeding, search returning sources) aborts at its first analysis
round — the KeyError of analyze.py line 203 — with termination_reason still
null at every state it reached, so termination_reason is set zero times in
this session, refuting that it is set exactly once per session. -/
theorem termination_never_set_cex :
    ((run_src cfg0 envA (initial_state "sess-1" "Acme Corp" none 5) 0).map
        (fun p => (p.1, p.2.termination_reason, p.2.should_continue)) =
      some (Node.init_session, none, true)) ∧
    ((run_src cfg0 envA (initial_state "sess-1" "Acme Corp" none 5) 1).map
        (fun p => (p.1, p.2.termination_reason, p.2.should_continue)) =
      some (Node.generate_queries, none, true)) ∧
    ((run_src cfg0 envA (initial_state "sess-1" "Acme Corp" none 5) 2).map
        (fun p => (p.1, p.2.termination_reason, p.2.should_continue)) =
      some (Node.execute_search, none, true)) ∧
    ((run_src cfg0 envA (initial_state "sess-1" "Acme Corp" none 5) 3).map
        (fun p => (p.1, p.2.termination_reason, p.2.should_continue)) =
      some (Node.analyze_and_reflect, none, true)) ∧
    run_src cfg0 envA (initial_state "sess-1" "Acme Corp" none 5) 4 = none := by
  decide

/-- C2 amended: because the first analysis round of a session raises KeyError
on the never-created reflection_memory and risk_indicators keys, a session
aborts before any termination logic runs: in every state a session actually
reaches, termination_reason is null and should_continue is true — the reason
is set zero times rather than exactly once, the claimed iff holds only
vacuously, and no session reaches the connection-mapping, refinement,
synthesis or terminal stages. -/
theorem termination_never_set (cfg : Settings) (env : ℕ → EnvInput)
    (sid subj : String) (ctx : Option String) (maxD : ℕ) :
    ∀ (k : ℕ) (node : Node) (s : RState),
      run_src cfg env (initial_state sid subj ctx maxD) k = some (node, s) →
      s.termination_reason = none ∧ s.should_continue = true ∧
      (node = Node.init_session ∨ node = Node.generate_queries ∨
        node = Node.execute_search ∨ node = Node.analyze_and_reflect) := by
  intro k node s h
  obtain ⟨h1, h2, h3, _⟩ := run_src_session_inv cfg env sid subj ctx maxD k node s h
  exact ⟨h1, h2, h3⟩

/-- Witness for C2 at a concrete input: after one step of a fresh session the
reason is still null, should_continue is still true, and the traversal stands
at the query-planning node. -/
theorem termination_never_set_witness :
    (initial_state "sess-1" "Acme Corp" none 5).termination_reason = none ∧
    (initial_state "sess-1" "Acme Corp" none 5).should_continue = true ∧
    (Node.generate_queries = Node.init_session ∨
      Node.generate_queries = Node.generate_queries ∨
      Node.generate_queries = Node.execute_search ∨
      Node.generate_queries = Node.analyze_and_reflect) :=
  termination_never_set cfg0 envA "sess-1" "Acme Corp" none 5 1
    Node.generate_queries (initial_state "sess-1" "Acme Corp" none 5) rfl

/-- C6 counterexample: a concrete session whose query generation fails at the
first planning round: the planning node leaves an empty pending list and
increments error_count, but the traversal then moves to the search-execution
node, not toward synthesis — the no-queries routing does not exist on the
main loop path. -/
theorem planner_failure_main_path_cex :
    (run cfg0 envErr (initial_state "sess-1" "Acme Corp" none 5) 2).map
      (fun p => (p.1, p.2.pending_queries, p.2.error_count)) =
    some (Node.execute_search, [], 1) := by
  decide

/-- C6 amended: on planner failure the node degrades to an empty pending list
and an incremented error counter without raising, and the empty list reaches
synthesis with reason no_additional_queries only on the refine path; on the
main loop path the planning node is followed unconditionally by search
execution. -/
theorem planner_failure_degrades (cfg : Settings) (s : RState) (env : EnvInput)
    (msg : String) :
    ((generate_search_queries s (Except.error msg)).pending_queries = [] ∧
     (generate_search_queries s (Except.error msg)).error_count = s.error_count + 1) ∧
    (env.queryGen = Except.error msg →
      ∃ s2, step cfg Node.refine_queries s env = some (Node.synthesize_report, s2) ∧
        s2.termination_reason = some "no_additional_queries") ∧
    (∃ s3, step cfg Node.generate_queries s env = some (Node.execute_search, s3)) := by
  refine ⟨⟨rfl, rfl⟩, ?_, ⟨generate_search_queries s env.queryGen, rfl⟩⟩
  intro hgen
  have hempty : (generate_search_queries s env.queryGen).pending_queries = [] := by
    rw [hgen]
    rfl
  have hroute : (has_new_queries (generate_search_queries s env.queryGen)).2 =
      HNQRoute.synthesize := by
    rw [has_new_queries, if_pos (by rw [hempty]; rfl)]
  refine ⟨(has_new_queries (generate_search_queries s env.queryGen)).1, ?_, ?_⟩
  · simp only [step]
    split
    · rename_i hr
      rw [hroute] at hr
      cases hr
    · rfl
  · rw [hnq_synthesize_facts _ hroute]

/-- Witness for C6 at a concrete input: with a failing generator on the refine
path the traversal moves to synthesis with reason no_additional_queries. -/
theorem planner_failure_degrades_witness :
    (step cfg0 Node.refine_queries (initial_state "sess-1" "Acme Corp" none 5)
        (envErr 0)).map (fun p => (p.1, p.2.termination_reason)) =
      some (Node.synthesize_report, some "no_additional_queries") := by
  obtain ⟨s2, hstep, hreason⟩ :=
    (planner_failure_degrades cfg0 (initial_state "sess-1" "Acme Corp" none 5)
      (envErr 0) "query generation failed").2.1 rfl
  rw [hstep]
  simp [hreason]

end DeepResearch
